import Mathlib

/-!
Verification development for the cp-nagios-plugins repository.

The definitions below are a shallow embedding of the Python sources under
`src/libnagios/` (plugin.py and the probes in checks/).  Python strings are
Lean `String`s, Python dynamic values are the closed sum `PyValue`, the
`dict` used for perfdata is an insertion-ordered association list, and code
that raises becomes `Except String`.  The `Range` threshold class is not
part of the sources provided (only its unit tests and call sites are), so it
is modelled from the specification, as marked on each such definition.
-/

namespace CpNagios

/-- The `Status` enum of src/libnagios/plugin.py (lines 47-53):
OK = 0, WARN = 1, CRITICAL = 2, UNKNOWN = 3. -/
inductive Status where
  | OK
  | WARN
  | CRITICAL
  | UNKNOWN
deriving DecidableEq, Repr

/-- `Status.value` in the Python enum: the numeric member value. -/
def Status.value : Status → Nat
  | .OK => 0
  | .WARN => 1
  | .CRITICAL => 2
  | .UNKNOWN => 3

/-- `Status.name` in the Python enum: the member name as a string. -/
def Status.name : Status → String
  | .OK => "OK"
  | .WARN => "WARN"
  | .CRITICAL => "CRITICAL"
  | .UNKNOWN => "UNKNOWN"

/-- Closed sum of the Python runtime values the plugin code passes around:
`str`, `int`, `float` (modelled as an exact rational; no claim below depends
on float rounding or rendering), and `list` (needed because `add_perf` can be
handed one). -/
inductive PyValue where
  | str (s : String)
  | int (i : Int)
  | float (q : ℚ)
  | list (xs : List PyValue)

mutual

/-- Python `str(value)` as used in `f"\x7bkey\x7d=\x7bstr(value)\x7d"` of
`Plugin.finish`.  Numeric and list element rendering is abbreviated (exact
digits of floats are irrelevant to every claim below). -/
def pyStr : PyValue → String
  | .str s => s
  | .int i => toString i
  | .float q => toString q
  | .list xs => "[" ++ pyStrList xs ++ "]"

/-- Comma-joined rendering of a Python list, used by `pyStr`. -/
def pyStrList : List PyValue → String
  | [] => ""
  | [x] => pyStr x
  | x :: xs => pyStr x ++ ", " ++ pyStrList xs

end

mutual

/-- `json.dumps` rendering of one value (string escaping omitted; no claim
depends on the exact JSON text). -/
def jsonVal : PyValue → String
  | .str s => "\"" ++ s ++ "\""
  | .int i => toString i
  | .float q => toString q
  | .list xs => "[" ++ jsonValList xs ++ "]"

/-- Comma-joined JSON rendering of a Python list, used by `jsonVal`. -/
def jsonValList : List PyValue → String
  | [] => ""
  | [x] => jsonVal x
  | x :: xs => jsonVal x ++ ", " ++ jsonValList xs

end

/-- `json.dumps` of the perfdata dict, as called in `Plugin.finish`. -/
def jsonDumps (pd : List (String × PyValue)) : String :=
  "\x7b" ++
    String.intercalate ", "
      (pd.map fun kv => "\"" ++ kv.1 ++ "\": " ++ jsonVal kv.2) ++
  "\x7d"

/-- The character class stripped by Python `str.strip()` (ASCII part). -/
def isPySpace (c : Char) : Bool :=
  c = ' ' || c = '\t' || c = '\n' || c = '\r' || c = '\x0b' || c = '\x0c'

/-- Python `str.strip()` on the character list: drop the stripped class from
both ends. -/
def pyStripList (l : List Char) : List Char :=
  ((l.dropWhile isPySpace).reverse.dropWhile isPySpace).reverse

/-- Python `value.strip()` as used by the `message` setter. -/
def pyStrip (s : String) : String :=
  ⟨pyStripList s.data⟩

/-- The mutable state of `Plugin` (src/libnagios/plugin.py `__init__`,
lines 70-80): `_message`, `_status`, `_perfdata`.  The perfdata dict is an
insertion-ordered association list, as a Python dict is. -/
structure Plugin where
  message : Option String
  status : Status
  perfdata : List (String × PyValue)

/-- `Plugin.__init__`: message `None`, status `OK`, empty perfdata. -/
def Plugin.init : Plugin :=
  ⟨none, Status.OK, []⟩

/-- The `message` property setter (plugin.py lines 97-105): reject a value
that is not a `str`, reject a string containing the pipe character, store
the string stripped of surrounding whitespace. -/
def Plugin.setMessage (p : Plugin) (value : PyValue) : Except String Plugin :=
  match value with
  | .str s =>
      if '|' ∈ s.data then
        .error "message must not contain the pipe character"
      else
        .ok { p with message := some (pyStrip s) }
  | _ => .error "message must be a str"

/-- The `status` property setter (plugin.py lines 115-121): the isinstance
guard always passes in this typed embedding, and the setter is a plain
assignment of the candidate value. -/
def Plugin.setStatus (p : Plugin) (value : Status) : Plugin :=
  { p with status := value }

/-- Python dict assignment `d[k] = v` on the insertion-ordered entry list:
replace the entry in place when the key exists (keeping its position),
append a new entry otherwise.  A Python dict never holds a duplicate key, so
replacing the first occurrence is exact. -/
def assocUpdate (pd : List (String × PyValue)) (k : String) (v : PyValue) :
    List (String × PyValue) :=
  match pd with
  | [] => [(k, v)]
  | kv :: rest =>
      if kv.1 == k then (k, v) :: rest else kv :: assocUpdate rest k v

/-- Python dict lookup `d[k]` (as an `Option`). -/
def assocLookup (pd : List (String × PyValue)) (k : String) : Option PyValue :=
  match pd.find? fun kv => kv.1 == k with
  | some kv => some kv.2
  | none => none

/-- `isinstance(x, (str, float, int))` on a `PyValue`. -/
def isStrFloatInt : PyValue → Bool
  | .str _ => true
  | .float _ => true
  | .int _ => true
  | .list _ => false

/-- `Plugin.add_perf` (plugin.py lines 123-151), translated check for check:
the first guard rejects a non-`str` key; the second guard — which the
docstring describes as the value-type check — re-tests `key` against
`(str, float, int)` instead of testing `value`, exactly as the source does;
then the value is stored unconditionally. -/
def Plugin.add_perf (p : Plugin) (key value : PyValue) : Except String Plugin :=
  match key with
  | .str k =>
      if isStrFloatInt (.str k) then
        .ok { p with perfdata := assocUpdate p.perfdata k value }
      else
        .error "value must be one of str float int"
  | _ => .error "when adding perf data key must be a str"

/-- Python truthiness of `self._message` in `Plugin.finish` line 210:
`None` and the empty string are falsy. -/
def messageSet (m : Option String) : Bool :=
  match m with
  | some s => !s.isEmpty
  | none => false

/-- The placeholder written by `Plugin.finish` line 213 when the message was
never set (with `__name__` = `libnagios.plugin` interpolated, typo kept). -/
def UNDEF_MESSAGE : String :=
  "CRITICAL libnagios.plugin.Plugin.message udefined...."

/-- The message part of the output of `Plugin.finish` (lines 210-214):
the stored message if truthy, the placeholder otherwise. -/
def Plugin.msgPart (p : Plugin) : String :=
  if messageSet p.message then p.message.getD "" else UNDEF_MESSAGE

/-- The status `Plugin.finish` leaves in `self._status`: forced to CRITICAL
when the message is falsy (line 214), unchanged otherwise. -/
def Plugin.finishStatus (p : Plugin) : Status :=
  if messageSet p.message then p.status else Status.CRITICAL

/-- The `key=value` newline-joined perfdata rendering of `Plugin.finish`
lines 221-224. -/
def serializePerfPlain (pd : List (String × PyValue)) : String :=
  String.intercalate "\n" (pd.map fun kv => kv.1 ++ "=" ++ pyStr kv.2)

/-- The perfdata suffix of the output (lines 215-224): empty when the
perfdata dict is falsy, otherwise a pipe followed by JSON or `key=value`
lines. -/
def Plugin.perfSuffix (p : Plugin) (as_json : Bool) : String :=
  if p.perfdata.isEmpty then ""
  else "|" ++ (if as_json then jsonDumps p.perfdata
               else serializePerfPlain p.perfdata)

/-- The full serialized blob `Plugin.finish` accumulates in its StringIO
before the size-limited read: message part, then perfdata suffix. -/
def Plugin.finishBlob (p : Plugin) (as_json : Bool) : String :=
  p.msgPart ++ p.perfSuffix as_json

/-- `output.read(limit)` on a StringIO rewound to 0: the first `limit`
characters. -/
def strTake (s : String) (n : Nat) : String :=
  ⟨s.data.take n⟩

/-- `Plugin.finish` (plugin.py lines 189-227): returns what is written to
stdout and the process exit code `sys.exit(self._status.value)`, where
`_status` is the possibly-CRITICAL-forced final status. -/
def Plugin.finish (p : Plugin) (as_json : Bool) (limit : Nat) : String × Nat :=
  (strTake (p.finishBlob as_json) limit, (p.finishStatus).value)

/-- `Plugin.finish` with its declared default `limit=4096`. -/
def Plugin.finishDefault (p : Plugin) (as_json : Bool) : String × Nat :=
  p.finish as_json 4096

/-- The perfdata dict after `Plugin.main` (lines 319-321) injects the
reserved keys: `epoch` (the start time float), `runtime` (a formatted
string), then `state` = the status name at that point — all through
`add_perf`, whose guards pass for `str` keys. -/
def Plugin.mainPerf (p : Plugin) (epoch runtime : PyValue) :
    List (String × PyValue) :=
  assocUpdate
    (assocUpdate (assocUpdate p.perfdata "epoch" epoch) "runtime" runtime)
    "state" (.str p.status.name)

/-- The tail of `Plugin.main` (lines 316-322): inject the reserved perfdata
keys, then call `finish` with the default 4096 limit. -/
def Plugin.mainFinish (p : Plugin) (epoch runtime : PyValue) (as_json : Bool) :
    String × Nat :=
  Plugin.finish { p with perfdata := p.mainPerf epoch runtime } as_json 4096

/-- Modelled from the spec: the integer threshold range class
(`libnagios.args.Range` / `libnagios.utils.Range`), whose module is not in
the provided sources — only its unit tests (src/tests/libnagios_args_test.py)
and call sites are.  Fields follow spec section 3: normalized bounds with
`low <= high` and an inverse flag. -/
structure Range where
  low : Int
  high : Int
  inverse : Bool
deriving DecidableEq, Repr

/-- Modelled from the spec: the integer domain maximum, `2^32 - 1`. -/
def DOMAIN_MAX : Int :=
  2 ^ 32 - 1

/-- Numeric value of a decimal digit character, `none` otherwise. -/
def digitVal (c : Char) : Option Nat :=
  if '0' ≤ c && c ≤ '9' then some (c.toNat - '0'.toNat) else none

/-- Accumulator-style decimal parse of a digit list, most significant digit
first; fails on any non-digit. -/
def parseNatAux : Nat → List Char → Option Nat
  | acc, [] => some acc
  | acc, c :: rest =>
      match digitVal c with
      | some d => parseNatAux (acc * 10 + d) rest
      | none => none

/-- Decimal parse of a non-empty digit list. -/
def parseNatList (l : List Char) : Option Nat :=
  if l.isEmpty then none else parseNatAux 0 l

/-- Modelled from the spec: the numeric bound token parse (Python `int()`
on the token) — an optional leading minus sign then decimal digits. -/
def parseIntList (l : List Char) : Option Int :=
  if l.head? = some '-' then
    (parseNatList l.tail).map fun n => -(n : Int)
  else
    (parseNatList l).map fun n => (n : Int)

/-- Split a character list at its first colon, `none` when there is none. -/
def breakColon : List Char → Option (List Char × List Char)
  | [] => none
  | c :: rest =>
      if c = ':' then some ([], rest)
      else
        match breakColon rest with
        | some ab => some (c :: ab.1, ab.2)
        | none => none

/-- Modelled from the spec (section 4.1 grammar table): parse of the part
after the `@` marker, already split at the colon into the low and high
tokens.  Both omitted: `1 .. DOMAIN_MAX`; low omitted: `1 .. b`; high
omitted: `a .. DOMAIN_MAX`; both present: bounds swapped to `low <= high`
with `inverse` set exactly when the raw input had `min > max`. -/
def parseAtRange (lo hi : List Char) : Except String Range :=
  match lo, hi with
  | [], [] => .ok ⟨1, DOMAIN_MAX, false⟩
  | [], _ =>
      match parseIntList hi with
      | some b => .ok ⟨1, b, false⟩
      | none => .error "range bound token is not numeric"
  | _, [] =>
      match parseIntList lo with
      | some a => .ok ⟨a, DOMAIN_MAX, false⟩
      | none => .error "range bound token is not numeric"
  | _, _ =>
      match parseIntList lo, parseIntList hi with
      | some a, some b =>
          if a > b then .ok ⟨b, a, true⟩ else .ok ⟨a, b, false⟩
      | _, _ => .error "range bound token is not numeric"

/-- Modelled from the spec: `Range(spec)` parsing.  A spec starting with `@`
uses the explicit `min:max` grammar; otherwise the whole spec is a single
number `n` giving the band `0 .. n` (spec section 4.1, first table row). -/
def parseRange (spec : String) : Except String Range :=
  if spec.data.head? = some '@' then
    match breakColon spec.data.tail with
    | some ab => parseAtRange ab.1 ab.2
    | none => .error "range spec after the at sign needs a colon"
  else
    match parseIntList spec.data with
    | some n => .ok ⟨0, n, false⟩
    | none => .error "range spec is not numeric"

/-- Modelled from the spec: `v in range` membership — inside the band when
`inverse` is false, strictly outside it when `inverse` is true. -/
def rangeContains (r : Range) (v : Int) : Bool :=
  if r.inverse then v < r.low || v > r.high
  else r.low ≤ v && v ≤ r.high

/-- Decimal digit character for a value below ten. -/
def digitChar : Nat → Char
  | 0 => '0'
  | 1 => '1'
  | 2 => '2'
  | 3 => '3'
  | 4 => '4'
  | 5 => '5'
  | 6 => '6'
  | 7 => '7'
  | 8 => '8'
  | 9 => '9'
  | _ => '?'

/-- Decimal digits of a positive number, least significant first. -/
def natDigitsRev : Nat → List Char
  | 0 => []
  | n + 1 => digitChar ((n + 1) % 10) :: natDigitsRev ((n + 1) / 10)
decreasing_by exact Nat.div_lt_self (Nat.succ_pos n) (by norm_num)

/-- Python `str(n)` for a nonnegative integer: its decimal numeral. -/
def natRepr (n : Nat) : String :=
  if n = 0 then "0" else ⟨(natDigitsRev n).reverse⟩

/-- Written from the words of the spec, for comparison with the code:
`escalate(current, candidate)` returns the maximum of the two statuses under
the severity order OK < WARN < CRITICAL (spec section 4.2). -/
def specEscalate (cur cand : Status) : Status :=
  if cur.value ≤ cand.value then cand else cur

/-- The status flow of `Check.process_procs`
(src/libnagios/checks/check_cp_procs.py lines 122-136): if the count is not
in the warning range, status is assigned WARN; then, if the count is not in
the critical range, status is assigned CRITICAL.  Both membership tests are
always evaluated, warning first. -/
def process_procs_status (s0 : Status) (warn crit : Range) (count : Int) :
    Status :=
  let s1 := if !(rangeContains warn count) then Status.WARN else s0
  if !(rangeContains crit count) then Status.CRITICAL else s1

/-- The two threshold kinds a probe compares a measurement against. -/
inductive Thresh where
  | warn
  | crit
deriving DecidableEq, Repr

/-- The order in which `Check.process_procs` evaluates its threshold tests:
the warning membership test (line 123) always runs, then the critical
membership test (line 130) always runs. -/
def procsEvalOrder : List Thresh :=
  [Thresh.warn, Thresh.crit]

/-- The status assigned by `Check.execute` of src/libnagios/checks/disk.py
(lines 74-79): `if free < critical` then CRITICAL, `elif free < warn` then
WARN, else OK.  Float quantities are embedded as exact rationals; only the
order structure of the comparisons matters to the claims below. -/
def diskStatus (free crit warn : ℚ) : Status :=
  if free < crit then Status.CRITICAL
  else if free < warn then Status.WARN
  else Status.OK

/-- The threshold comparisons the disk `if/elif` chain actually evaluates,
in order: the critical comparison always runs first; the warning comparison
runs only when the critical branch is not taken. -/
def diskEvalOrder (free crit : ℚ) : List Thresh :=
  if free < crit then [Thresh.crit] else [Thresh.crit, Thresh.warn]

/-! ### Helper lemmas -/

theorem mem_pyStripList {c : Char} {l : List Char} (h : c ∈ pyStripList l) :
    c ∈ l := by
  unfold pyStripList at h
  rw [List.mem_reverse] at h
  have h1 := List.dropWhile_subset (l := (l.dropWhile isPySpace).reverse) isPySpace h
  rw [List.mem_reverse] at h1
  exact List.dropWhile_subset isPySpace h1

theorem head?_pyStripList {c : Char} {l : List Char}
    (h : (pyStripList l).head? = some c) : isPySpace c = false := by
  unfold pyStripList at h
  rw [List.head?_reverse] at h
  obtain ⟨t, ht⟩ :=
    List.dropWhile_suffix (l := (l.dropWhile isPySpace).reverse) isPySpace
  have hY : ((l.dropWhile isPySpace).reverse).getLast? = some c := by
    rw [← ht, List.getLast?_append, h]
    rfl
  rw [List.getLast?_reverse] at hY
  have hnot := List.head?_dropWhile_not isPySpace l
  rw [hY] at hnot
  exact hnot

theorem getLast?_pyStripList {c : Char} {l : List Char}
    (h : (pyStripList l).getLast? = some c) : isPySpace c = false := by
  unfold pyStripList at h
  rw [List.getLast?_reverse] at h
  have hnot := List.head?_dropWhile_not isPySpace ((l.dropWhile isPySpace).reverse)
  rw [h] at hnot
  exact hnot

theorem assocLookup_assocUpdate (pd : List (String × PyValue)) (k : String)
    (v : PyValue) : assocLookup (assocUpdate pd k v) k = some v := by
  induction pd with
  | nil => simp [assocUpdate, assocLookup]
  | cons kv rest ih =>
      by_cases h : kv.1 = k
      · simp [assocUpdate, assocLookup, h]
      · simp only [assocUpdate, beq_iff_eq, if_neg h]
        simp only [assocLookup, List.find?] at ih ⊢
        rw [show (kv.1 == k) = false from beq_eq_false_iff_ne.mpr h]
        exact ih

theorem digitVal_digitChar {d : Nat} (h : d < 10) :
    digitVal (digitChar d) = some d := by
  interval_cases d <;> decide

theorem digitChar_isDigit {d : Nat} (h : d < 10) :
    ('0' ≤ digitChar d && digitChar d ≤ '9') = true := by
  interval_cases d <;> decide

theorem mem_natDigitsRev {n : Nat} {c : Char} (h : c ∈ natDigitsRev n) :
    ('0' ≤ c && c ≤ '9') = true := by
  induction n using Nat.strong_induction_on with
  | _ n ih =>
      match n with
      | 0 => simp [natDigitsRev] at h
      | m + 1 =>
          rw [natDigitsRev] at h
          rcases List.mem_cons.mp h with hc | hc
          · subst hc
            exact digitChar_isDigit (Nat.mod_lt _ (by norm_num))
          · exact ih ((m + 1) / 10)
              (Nat.div_lt_self (Nat.succ_pos m) (by norm_num)) hc

theorem parseNatAux_append (l : List Char) (c : Char) :
    ∀ acc, parseNatAux acc (l ++ [c]) =
      match parseNatAux acc l, digitVal c with
      | some a, some d => some (a * 10 + d)
      | some _, none => none
      | none, _ => none := by
  induction l with
  | nil =>
      intro acc
      cases h : digitVal c <;> simp [parseNatAux, h]
  | cons e l ih =>
      intro acc
      cases h : digitVal e <;> simp [parseNatAux, h, ih]

theorem parseNatAux_natDigitsRev (n : Nat) :
    ∀ acc, parseNatAux acc (natDigitsRev n).reverse =
      some (acc * 10 ^ (natDigitsRev n).length + n) := by
  induction n using Nat.strong_induction_on with
  | _ n ih =>
      match n with
      | 0 =>
          intro acc
          simp [natDigitsRev, parseNatAux]
      | m + 1 =>
          intro acc
          have hlt : (m + 1) / 10 < m + 1 :=
            Nat.div_lt_self (Nat.succ_pos m) (by norm_num)
          have h1 := ih ((m + 1) / 10) hlt acc
          have h2 := digitVal_digitChar (d := (m + 1) % 10)
            (Nat.mod_lt _ (by norm_num))
          rw [natDigitsRev, List.reverse_cons, parseNatAux_append, h1, h2,
            List.length_cons]
          refine congrArg some ?_
          have hdm : (m + 1) / 10 * 10 + (m + 1) % 10 = m + 1 :=
            Nat.div_add_mod' (m + 1) 10
          calc (acc * 10 ^ (natDigitsRev ((m + 1) / 10)).length + (m + 1) / 10)
                  * 10 + (m + 1) % 10
              = acc * (10 ^ (natDigitsRev ((m + 1) / 10)).length * 10) +
                  ((m + 1) / 10 * 10 + (m + 1) % 10) := by ring
            _ = acc * 10 ^ ((natDigitsRev ((m + 1) / 10)).length + 1) +
                  (m + 1) := by rw [hdm, pow_succ]

theorem head?_mem {l : List Char} {c : Char} (h : l.head? = some c) :
    c ∈ l := by
  obtain ⟨t, rfl⟩ := List.head?_eq_some_iff.mp h
  exact List.mem_cons_self c t

theorem natDigitsRev_ne_nil {n : Nat} (h : n ≠ 0) : natDigitsRev n ≠ [] := by
  match n with
  | 0 => exact absurd rfl h
  | m + 1 =>
      rw [natDigitsRev]
      exact List.cons_ne_nil _ _

theorem natRepr_head_digit {n : Nat} {c : Char}
    (h : (natRepr n).data.head? = some c) : ('0' ≤ c && c ≤ '9') = true := by
  unfold natRepr at h
  by_cases hn : n = 0
  · rw [if_pos hn] at h
    have h0 : ("0".data) = ['0'] := rfl
    rw [h0] at h
    have : c = '0' := by simpa using h.symm
    subst this
    decide
  · rw [if_neg hn] at h
    have hc : c ∈ (natDigitsRev n).reverse := head?_mem h
    rw [List.mem_reverse] at hc
    exact mem_natDigitsRev hc

theorem parseIntList_natRepr (n : Nat) :
    parseIntList (natRepr n).data = some (n : Int) := by
  by_cases hn : n = 0
  · subst hn
    rfl
  · have hx : (natRepr n).data = (natDigitsRev n).reverse := by
      unfold natRepr
      rw [if_neg hn]
    have hhead : ((natDigitsRev n).reverse).head? ≠ some '-' := by
      intro hc
      have hdig := mem_natDigitsRev (List.mem_reverse.mp (head?_mem hc))
      exact absurd hdig (by decide)
    have hne : (natDigitsRev n).reverse ≠ [] := by
      simpa using natDigitsRev_ne_nil hn
    rw [hx]
    unfold parseIntList
    rw [if_neg hhead]
    unfold parseNatList
    rw [if_neg (by simpa [List.isEmpty_iff] using hne)]
    rw [parseNatAux_natDigitsRev n 0]
    simp

theorem parseRange_natRepr (n : Nat) :
    parseRange (natRepr n) = Except.ok ⟨0, (n : Int), false⟩ := by
  unfold parseRange
  have hhead : (natRepr n).data.head? ≠ some '@' := by
    intro hc
    exact absurd (natRepr_head_digit hc) (by decide)
  rw [if_neg hhead, parseIntList_natRepr n]

/-- The spec-modelled `Range` reproduces every vector of
src/tests/libnagios_args_test.py (TestArgsRange). -/
theorem range_model_matches_tests :
    parseRange "1" = Except.ok ⟨0, 1, false⟩ ∧
    parseRange "10" = Except.ok ⟨0, 10, false⟩ ∧
    parseRange "@1:10" = Except.ok ⟨1, 10, false⟩ ∧
    parseRange "@:10" = Except.ok ⟨1, 10, false⟩ ∧
    parseRange "@10:" = Except.ok ⟨10, DOMAIN_MAX, false⟩ ∧
    parseRange "@:" = Except.ok ⟨1, DOMAIN_MAX, false⟩ ∧
    parseRange "@-10:12" = Except.ok ⟨-10, 12, false⟩ ∧
    parseRange "@10:1" = Except.ok ⟨1, 10, true⟩ ∧
    (∃ e, parseRange "@a:b" = Except.error e) ∧
    rangeContains ⟨0, 10, false⟩ 0 = true ∧
    rangeContains ⟨0, 10, false⟩ 10 = true ∧
    rangeContains ⟨0, 10, false⟩ (-1) = false ∧
    rangeContains ⟨0, 10, false⟩ 11 = false ∧
    rangeContains ⟨10, DOMAIN_MAX, false⟩ DOMAIN_MAX = true ∧
    rangeContains ⟨10, DOMAIN_MAX, false⟩ 9 = false := by
  refine ⟨rfl, rfl, rfl, rfl, rfl, rfl, rfl, rfl, ⟨_, rfl⟩, ?_, ?_, ?_, ?_, ?_, ?_⟩
    <;> decide

/-! ### Claims -/

/-- Claim C1: for every finished Result, the exit code produced by
`Plugin.finish` equals the numeric value of the Result's (final) status,
with OK = 0, WARN = 1, CRITICAL = 2, UNKNOWN = 3, and no exit code above 3
is possible from the normal formatting path. -/
theorem c1_exit_code_is_status_value (p : Plugin) (aj : Bool) (limit : Nat) :
    (p.finish aj limit).2 = (p.finishStatus).value ∧
    Status.value .OK = 0 ∧ Status.value .WARN = 1 ∧
    Status.value .CRITICAL = 2 ∧ Status.value .UNKNOWN = 3 ∧
    (p.finish aj limit).2 ≤ 3 := by
  refine ⟨rfl, rfl, rfl, rfl, rfl, ?_⟩
  show (p.finishStatus).value ≤ 3
  cases p.finishStatus <;> decide

/-- Claim C2: when the message is empty (never set, or set to the empty
string) `Plugin.finish` substitutes the fixed placeholder and forces the
status to CRITICAL, so the exit code is 2 regardless of the prior status;
when the message is non-empty, the message part and the status are emitted
unchanged. -/
theorem c2_empty_message_fail_safe (p : Plugin) (aj : Bool) (limit : Nat) :
    (messageSet p.message = false →
        p.msgPart = UNDEF_MESSAGE ∧
        p.finishStatus = Status.CRITICAL ∧
        (p.finish aj limit).2 = 2) ∧
    (messageSet p.message = true →
        p.msgPart = p.message.getD "" ∧
        p.finishStatus = p.status ∧
        (p.finish aj limit).2 = (p.status).value) := by
  constructor <;> intro h <;>
    simp [Plugin.msgPart, Plugin.finishStatus, Plugin.finish, h, Status.value]

theorem c2_witness :
    Plugin.msgPart ⟨none, Status.UNKNOWN, []⟩ = UNDEF_MESSAGE ∧
    Plugin.finishStatus ⟨none, Status.UNKNOWN, []⟩ = Status.CRITICAL ∧
    (Plugin.finish ⟨none, Status.UNKNOWN, []⟩ false 4096).2 = 2 :=
  (c2_empty_message_fail_safe ⟨none, Status.UNKNOWN, []⟩ false 4096).1 rfl

/-- Claim C3: `Plugin.finish` emits the fully serialized blob — message
part, then a pipe and the perfdata if there is any — hard-cut to at most
`limit` characters: output of length exactly `limit` when the natural
length exceeds it, the whole blob otherwise; the declared default limit is
4096. -/
theorem c3_hard_truncation (p : Plugin) (aj : Bool) (limit : Nat) :
    p.finishBlob aj = p.msgPart ++ p.perfSuffix aj ∧
    (p.finish aj limit).1 = strTake (p.finishBlob aj) limit ∧
    (limit < (p.finishBlob aj).data.length →
        ((p.finish aj limit).1).data.length = limit) ∧
    ((p.finishBlob aj).data.length ≤ limit →
        (p.finish aj limit).1 = p.finishBlob aj) ∧
    p.finishDefault aj = p.finish aj 4096 := by
  refine ⟨rfl, rfl, ?_, ?_, rfl⟩
  · intro h
    show ((p.finishBlob aj).data.take limit).length = limit
    rw [List.length_take]
    exact Nat.min_eq_left (Nat.le_of_lt h)
  · intro h
    show (⟨(p.finishBlob aj).data.take limit⟩ : String) = p.finishBlob aj
    rw [List.take_of_length_le h]

theorem c3_witness :
    (5 < (Plugin.finishBlob ⟨some "hello world", Status.OK, []⟩ false).data.length ∧
      ((Plugin.finish ⟨some "hello world", Status.OK, []⟩ false 5).1).data.length = 5) ∧
    ((Plugin.finishBlob ⟨some "hello world", Status.OK, []⟩ false).data.length ≤ 100 ∧
      (Plugin.finish ⟨some "hello world", Status.OK, []⟩ false 100).1 =
        Plugin.finishBlob ⟨some "hello world", Status.OK, []⟩ false) :=
  ⟨⟨by decide,
    (c3_hard_truncation ⟨some "hello world", Status.OK, []⟩ false 5).2.2.1 (by decide)⟩,
   ⟨by decide,
    (c3_hard_truncation ⟨some "hello world", Status.OK, []⟩ false 100).2.2.2.1 (by decide)⟩⟩

/-- Claim C4 counterexample: the status mutation path of the code
(`Plugin.status` setter) is a plain overwrite, not a maximum: applied to a
Result at WARN with candidate OK it yields OK, while the claimed
`escalate = max` yields WARN. -/
theorem c4_overwrite_cex :
    (Plugin.setStatus ⟨none, Status.WARN, []⟩ Status.OK).status = Status.OK ∧
    specEscalate Status.WARN Status.OK = Status.WARN ∧
    Status.OK ≠ Status.WARN :=
  ⟨rfl, rfl, by decide⟩

/-- Claim C4 (amended): the mutation path used by probe logic is plain
assignment — setting the status to a candidate always yields the candidate,
so downgrades such as WARN to OK are possible through it; nevertheless the
procs probe's status computation, run from the initial OK as `execute`
always does, equals the maximum (under OK < WARN < CRITICAL) of the two
per-threshold verdicts, so there escalation behaves like the claimed max. -/
theorem c4_amended_assignment_and_procs_max (p : Plugin) (v : Status)
    (warn crit : Range) (count : Int) :
    (p.setStatus v).status = v ∧
    process_procs_status Status.OK warn crit count =
      specEscalate
        (if rangeContains warn count then Status.OK else Status.WARN)
        (if rangeContains crit count then Status.OK else Status.CRITICAL) := by
  refine ⟨rfl, ?_⟩
  by_cases hw : rangeContains warn count <;>
    by_cases hc : rangeContains crit count <;>
      simp [process_procs_status, specEscalate, hw, hc, Status.value]

/-- Claim C5: the code evaluated at the failing input — `add_perf` with a
`str` key and a `list` value succeeds and records the list, where the claim
(and the method's own docstring) requires a ValidationError for a value
that is not str/float/int.  The slip: the second isinstance guard re-tests
`key` instead of `value`. -/
theorem c5_add_perf_accepts_list_value :
    Plugin.add_perf Plugin.init (.str "mykey") (.list [.int 1, .int 2, .int 3]) =
      Except.ok ⟨none, Status.OK, [("mykey", .list [.int 1, .int 2, .int 3])]⟩ :=
  rfl

/-- Claim C6: setting the Result message fails exactly when the text
contains a pipe character; otherwise the text is stored stripped of
surrounding whitespace, so a stored message never contains a pipe and never
has leading or trailing whitespace. -/
theorem c6_message_validation (p : Plugin) (s : String) :
    ('|' ∈ s.data → ∃ e, p.setMessage (.str s) = Except.error e) ∧
    ('|' ∉ s.data →
        p.setMessage (.str s) = Except.ok { p with message := some (pyStrip s) } ∧
        '|' ∉ (pyStrip s).data ∧
        (∀ c, (pyStrip s).data.head? = some c → isPySpace c = false) ∧
        (∀ c, (pyStrip s).data.getLast? = some c → isPySpace c = false)) := by
  constructor
  · intro h
    exact ⟨"message must not contain the pipe character",
      by simp [Plugin.setMessage, if_pos h]⟩
  · intro h
    refine ⟨by simp [Plugin.setMessage, h], ?_, ?_, ?_⟩
    · intro hm
      exact h (mem_pyStripList hm)
    · intro c hc
      exact head?_pyStripList hc
    · intro c hc
      exact getLast?_pyStripList hc

theorem c6_witness :
    Plugin.init.setMessage (.str "  ok  ") =
      Except.ok { Plugin.init with message := some (pyStrip "  ok  ") } ∧
    pyStrip "  ok  " = "ok" ∧
    (∃ e, Plugin.init.setMessage (.str "bad|pipe") = Except.error e) :=
  ⟨((c6_message_validation Plugin.init "  ok  ").2 (by decide)).1,
   by decide,
   (c6_message_validation Plugin.init "bad|pipe").1 (by decide)⟩

/-- Claim C7 counterexample: in the disk probe, at a value breaching both
thresholds (free 5, critical 10, warning 20) the `if/elif` chain evaluates
only the critical comparison — the warning threshold is never evaluated at
all, let alone before critical — though the outcome is still CRITICAL. -/
theorem c7_disk_order_cex :
    ((5 : ℚ) < 10 ∧ (5 : ℚ) < 20) ∧
    diskEvalOrder 5 10 = [Thresh.crit] ∧
    Thresh.warn ∉ diskEvalOrder 5 10 ∧
    diskStatus 5 10 20 = Status.CRITICAL := by
  have h : (5 : ℚ) < 10 := by norm_num
  refine ⟨⟨h, by norm_num⟩, ?_, ?_, ?_⟩
  · simp [diskEvalOrder, if_pos h]
  · simp [diskEvalOrder, if_pos h]
  · simp [diskStatus, if_pos h]

/-- Claim C7 (amended): a value breaching both thresholds always ends in
CRITICAL in both probes; the procs probe does evaluate the warning
membership test before the critical one (both always run, and the critical
assignment is applied last), but the disk probe evaluates the critical
comparison first and skips the warning comparison entirely whenever the
critical branch is taken. -/
theorem c7_amended_both_breached_critical (w c : Range) (n : Int)
    (free crit warn : ℚ)
    (hw : rangeContains w n = false) (hc : rangeContains c n = false)
    (hfc : free < crit) (hfw : free < warn) :
    process_procs_status Status.OK w c n = Status.CRITICAL ∧
    procsEvalOrder = [Thresh.warn, Thresh.crit] ∧
    diskStatus free crit warn = Status.CRITICAL ∧
    diskEvalOrder free crit = [Thresh.crit] := by
  refine ⟨?_, rfl, ?_, ?_⟩
  · simp [process_procs_status, hw, hc]
  · simp [diskStatus, if_pos hfc]
  · simp [diskEvalOrder, if_pos hfc]

theorem c7_witness :
    process_procs_status Status.OK ⟨0, 1, false⟩ ⟨0, 1, false⟩ 3 =
      Status.CRITICAL ∧
    procsEvalOrder = [Thresh.warn, Thresh.crit] ∧
    diskStatus 5 10 20 = Status.CRITICAL ∧
    diskEvalOrder 5 10 = [Thresh.crit] :=
  c7_amended_both_breached_critical ⟨0, 1, false⟩ ⟨0, 1, false⟩ 3 5 10 20
    (by decide) (by decide) (by norm_num) (by norm_num)

/-- Claim C8: for every nonnegative integer `n`, parsing the bare-number
range spec `str(n)` yields low 0, high `n`, inverse false, and an integer
`v` is contained exactly when `0 <= v <= n`.  (The `Range` class itself is
not in the provided sources; it is modelled from the spec, and the model is
checked against the repository's unit tests above.) -/
theorem c8_bare_number_range (n : Nat) (v : Int) :
    parseRange (natRepr n) = Except.ok ⟨0, (n : Int), false⟩ ∧
    (rangeContains ⟨0, (n : Int), false⟩ v = true ↔ 0 ≤ v ∧ v ≤ (n : Int)) := by
  refine ⟨parseRange_natRepr n, ?_⟩
  simp [rangeContains]

/-- Claim C9: parsing `"@10:1"` (explicit bounds with min > max) swaps the
bounds to low 1, high 10, sets inverse, and containment is flipped: an
integer is contained exactly when it is below the low bound or above the
high bound; in particular 0 and 11 are contained and 5 is not.  (`Range` is
spec-modelled, see C8.) -/
theorem c9_inverse_range :
    parseRange "@10:1" = Except.ok ⟨1, 10, true⟩ ∧
    (∀ v : Int, rangeContains ⟨1, 10, true⟩ v = true ↔ v < 1 ∨ 10 < v) ∧
    rangeContains ⟨1, 10, true⟩ 0 = true ∧
    rangeContains ⟨1, 10, true⟩ 11 = true ∧
    rangeContains ⟨1, 10, true⟩ 5 = false := by
  refine ⟨rfl, ?_, by decide, by decide, by decide⟩
  intro v
  simp [rangeContains]

/-- Claim C10: when a probe leaves the message empty but the status is some
S other than CRITICAL, `Plugin.main` records the reserved perfdata key
`state` = S's name before formatting, and `finish` then forces the status
to CRITICAL: the emitted perfdata carries `state` = S's name while the
process exit code is 2, and the two disagree. -/
theorem c10_state_exit_mismatch (p : Plugin) (epoch runtime : PyValue)
    (aj : Bool) (hmsg : messageSet p.message = false)
    (hst : p.status ≠ Status.CRITICAL) :
    (p.mainFinish epoch runtime aj).2 = 2 ∧
    assocLookup (p.mainPerf epoch runtime) "state" =
      some (.str (p.status).name) ∧
    (p.status).name ≠ "CRITICAL" := by
  refine ⟨?_, ?_, ?_⟩
  · simp [Plugin.mainFinish, Plugin.finish, Plugin.finishStatus, hmsg,
      Status.value]
  · exact assocLookup_assocUpdate _ _ _
  · cases hp : p.status
    · decide
    · decide
    · exact absurd hp hst
    · decide

theorem c10_witness :
    (Plugin.mainFinish ⟨none, Status.OK, []⟩ (.float 0) (.str "0.00") false).2 = 2 ∧
    assocLookup (Plugin.mainPerf ⟨none, Status.OK, []⟩ (.float 0) (.str "0.00"))
      "state" = some (.str "OK") ∧
    ("OK" : String) ≠ "CRITICAL" :=
  c10_state_exit_mismatch ⟨none, Status.OK, []⟩ (.float 0) (.str "0.00") false
    rfl (by decide)

end CpNagios
